import Mathlib

/-!
Verification development for `deepctr_torch/models/din.py` of DeepCTR-Torch:
a shallow embedding of the DIN (Deep Interest Network) model class and proofs
about its constructor and forward pass.

Tensors are modelled as nested lists of integers (the numeric payload is
irrelevant to the properties verified here; only shapes and dataflow matter).
Framework primitives (`torch.cat`, `torch.ones`) are modelled with their
documented shape semantics, including the error on concatenating an empty
list of tensors.  Library helpers from `deepctr_torch.inputs`,
`deepctr_torch.layers` and `basemodel.py` are not part of the provided source
tree; they are modelled from the spec where noted.
-/

set_option linter.unusedVariables false

namespace DeepCTR

/-- Model of a 2-dimensional tensor (batch of rows of scalars). -/
abbrev Tensor2 := List (List ℤ)

/-- Model of a 3-dimensional tensor (batch of sequences of embedding rows). -/
abbrev Tensor3 := List (List (List ℤ))

namespace torch

/-- Error message raised by `torch.cat` on an empty list of tensors. -/
def catEmptyMsg : String := "expected a non-empty list of Tensors"

/-- Error message raised by `torch.cat` on tensors whose non-concatenated
dimensions disagree. -/
def catShapeMsg : String := "Sizes of tensors must match except in the concatenated dimension"

/-- Concatenation of two 2-dimensional tensors along the last dimension:
requires equal batch sizes, then appends rows pointwise. -/
def catPair2 (a b : Tensor2) : Except String Tensor2 :=
  if a.length = b.length then
    Except.ok (List.zipWith (fun r s => r ++ s) a b)
  else Except.error catShapeMsg

/-- Model of `torch.cat(tensors, dim=-1)` on 2-dimensional tensors.  An empty
list of tensors is an error, as in the framework. -/
def cat2 (ts : List Tensor2) : Except String Tensor2 :=
  match ts with
  | [] => Except.error catEmptyMsg
  | t :: rest => rest.foldlM catPair2 t

/-- Concatenation of two 3-dimensional tensors along the last dimension:
requires equal batch sizes and equal per-batch sequence lengths, then appends
the innermost rows pointwise. -/
def catPair3 (a b : Tensor3) : Except String Tensor3 :=
  if a.length = b.length ∧ (List.zip a b).all (fun p => p.1.length == p.2.length) then
    Except.ok (List.zipWith (fun x y => List.zipWith (fun r s => r ++ s) x y) a b)
  else Except.error catShapeMsg

/-- Model of `torch.cat(tensors, dim=-1)` on 3-dimensional tensors.  An empty
list of tensors is an error, as in the framework. -/
def cat3 (ts : List Tensor3) : Except String Tensor3 :=
  match ts with
  | [] => Except.error catEmptyMsg
  | t :: rest => rest.foldlM catPair3 t

/-- Model of `torch.ones((b, 1))`: a `[b, 1]` tensor filled with ones. -/
def ones2 (b : Nat) : Tensor2 := List.replicate b [(1 : ℤ)]

end torch

/-- Feature column descriptors from `deepctr_torch.inputs`: `SparseFeat`
(categorical), `DenseFeat` (numeric, with a value dimension) and
`VarLenSparseFeat` (variable-length categorical sequence, with a max length). -/
inductive FeatureColumn where
  | SparseFeat (name : String) (dimension : Nat)
  | DenseFeat (name : String) (dimension : Nat)
  | VarLenSparseFeat (name : String) (dimension : Nat) (maxlen : Nat)
deriving DecidableEq

namespace FeatureColumn

/-- Feature name of a column. -/
def name : FeatureColumn → String
  | SparseFeat n _ => n
  | DenseFeat n _ => n
  | VarLenSparseFeat n _ _ => n

/-- Whether the column is a `SparseFeat`. -/
def isSparse : FeatureColumn → Bool
  | SparseFeat _ _ => true
  | _ => false

/-- Whether the column is a `DenseFeat`. -/
def isDense : FeatureColumn → Bool
  | DenseFeat _ _ => true
  | _ => false

/-- Whether the column is a `VarLenSparseFeat`. -/
def isVarLen : FeatureColumn → Bool
  | VarLenSparseFeat _ _ _ => true
  | _ => false

end FeatureColumn

/-- An input batch: per-feature columns of values, keyed by feature name. -/
structure Input where
  sparseVals : List (String × List ℤ)
  denseVals : List (String × Tensor2)
  varlenVals : List (String × Tensor3)
deriving DecidableEq

/-- Embedding tables keyed by feature name. -/
abbrev EmbeddingDict := List (String × Tensor3)

/-- Feature-name-to-column-range index built by the base model. -/
abbrev FeatureIndex := List (String × Nat × Nat)

/-- Modelled from the spec: `build_input_features` of `deepctr_torch.inputs`
(not under src/) assigns each feature a half-open column range in the flat
input matrix, in feature order. -/
def build_input_features (cols : List FeatureColumn) : FeatureIndex :=
  (cols.foldl (fun (acc : FeatureIndex × Nat) fc =>
    let width := match fc with
      | .SparseFeat _ _ => 1
      | .DenseFeat _ d => d
      | .VarLenSparseFeat _ _ m => m
    (acc.1 ++ [(fc.name, acc.2, acc.2 + width)], acc.2 + width)) ([], 0)).1

/-- Modelled from the spec: the learned embedding vector of a categorical
feature, a deterministic placeholder dense vector of the embedding size. -/
def embedding_vector (name : String) (embedding_size : Nat) : List ℤ :=
  List.replicate embedding_size ((name.length : ℤ) + 1)

/-- Modelled from the spec: `create_embedding_matrix` of the base model (not
under src/) creates one embedding table per sparse or variable-length sparse
feature, keyed by feature name; each looked-up embedding is a `[1, 1, E]`
tensor since the constructor-time lookups in this file take no input batch. -/
def create_embedding_matrix (cols : List FeatureColumn) (embedding_size : Nat) : EmbeddingDict :=
  cols.filterMap (fun fc =>
    match fc with
    | .SparseFeat n _ => some (n, [[embedding_vector n embedding_size]])
    | .VarLenSparseFeat n _ _ => some (n, [[embedding_vector n embedding_size]])
    | .DenseFeat _ _ => none)

/-- Modelled from the spec: `embedding_lookup` of `deepctr_torch.inputs` (not
under src/) returns, in column order, the embedding tensor of every given
sparse feature column whose name is in `return_feat_list` (all of them when
that list is empty); `mask_feat_list` only affects hashing and is ignored. -/
def embedding_lookup (sparse_embedding_dict : EmbeddingDict) (sparse_input_dict : FeatureIndex)
    (sparse_feature_columns : List FeatureColumn) (return_feat_list : List String)
    (mask_feat_list : List String) : List Tensor3 :=
  sparse_feature_columns.filterMap (fun fc =>
    if return_feat_list = [] ∨ fc.name ∈ return_feat_list then
      sparse_embedding_dict.lookup fc.name
    else none)

/-- Modelled from the spec: `varlen_embedding_lookup` of `deepctr_torch.inputs`
(not under src/) returns the embedding tensor of each variable-length sparse
feature column, keyed by feature name. -/
def varlen_embedding_lookup (embedding_dict : EmbeddingDict) (sequence_input_dict : FeatureIndex)
    (varlen_sparse_feature_columns : List FeatureColumn) : List (String × Tensor3) :=
  varlen_sparse_feature_columns.filterMap (fun fc =>
    (embedding_dict.lookup fc.name).map (fun t => (fc.name, t)))

/-- Pooling of a sequence of embedding rows into a single row (sum pooling),
keeping a `[B, 1, E]` shape. -/
def seq_sum_pool (t : Tensor3) : Tensor3 :=
  t.map (fun rows =>
    [rows.foldl (fun acc r => List.zipWith (fun a x => a + x) acc r)
      (List.replicate (rows.headD []).length 0)])

/-- Modelled from the spec: `get_varlen_pooling_list` of `deepctr_torch.inputs`
(not under src/) pools each variable-length feature embedding sequence into a
single vector per row. -/
def get_varlen_pooling_list (embedding_dict_seq : List (String × Tensor3)) (features : FeatureIndex)
    (varlen_sparse_feature_columns : List FeatureColumn) : List Tensor3 :=
  varlen_sparse_feature_columns.filterMap (fun fc =>
    (embedding_dict_seq.lookup fc.name).map seq_sum_pool)

/-- Modelled from the spec: `get_dense_input` of `deepctr_torch.inputs` (not
under src/) extracts, in column order, the value matrix of every dense feature
column from the input batch. -/
def get_dense_input (X : Input) (feature_columns : List FeatureColumn) : List Tensor2 :=
  feature_columns.filterMap (fun fc =>
    match fc with
    | .DenseFeat n _ => some ((X.denseVals.lookup n).getD [])
    | _ => none)

/-- Modelled from the spec: `combined_dnn_input` of `deepctr_torch.inputs` (not
under src/) concatenates the flattened sparse embeddings and the dense values
along the last dimension (an error when both lists are empty). -/
def combined_dnn_input (sparse_embedding_list : List Tensor2) (dense_value_list : List Tensor2) :
    Except String Tensor2 :=
  torch.cat2 (sparse_embedding_list ++ dense_value_list)

/-- Modelled from the spec: `BaseModel.compute_input_dim` (not under src/):
the flat DNN input width is one embedding of size `embedding_size` per sparse
or variable-length sparse feature plus the dimensions of the dense features. -/
def compute_input_dim (feature_columns : List FeatureColumn) (embedding_size : Nat) : Nat :=
  (feature_columns.filter (fun fc => fc.isSparse || fc.isVarLen)).length * embedding_size +
    (feature_columns.filterMap (fun fc =>
      match fc with
      | .DenseFeat _ d => some d
      | _ => none)).sum

/-- Modelled from the spec: `BaseModel.input_from_feature_columns` (not under
src/) recomputes, from the input batch, the per-row sparse feature embeddings
and extracts the dense value matrices. -/
def input_from_feature_columns (X : Input) (feature_columns : List FeatureColumn)
    (embedding_dict : EmbeddingDict) : List Tensor3 × List Tensor2 :=
  (feature_columns.filterMap (fun fc =>
    if fc.isSparse then
      (embedding_dict.lookup fc.name).map (fun t =>
        ((X.sparseVals.lookup fc.name).getD []).map (fun idx =>
          (t.headD []).map (fun row => row.map (fun z => z * idx))))
    else none),
   get_dense_input X feature_columns)

/-- Configuration of `AttentionSequencePoolingLayer` from
`deepctr_torch.layers.sequence` (not under src/), as instantiated by DIN. -/
structure AttentionSequencePoolingLayer where
  att_hidden_units : List Nat
  embedding_dim : Nat
  activation : String
deriving DecidableEq

/-- Dot product of two integer vectors. -/
def dotZ (a b : List ℤ) : ℤ := (List.zipWith (fun x y => x * y) a b).sum

/-- Modelled from the spec: the attention pooling mechanism (layer code not
under src/) weights historical behavior embeddings by relevance (dot product)
to the query embedding: per batch row it returns the relevance-weighted sum of
the first `keys_length` key embeddings, so `[B, 1, E] x [B, T, E] x [B, 1]`
maps to `[B, 1, E]`. -/
def AttentionSequencePoolingLayer.apply (l : AttentionSequencePoolingLayer)
    (query keys : Tensor3) (keys_length : Tensor2) : Tensor3 :=
  (List.zip query (List.zip keys keys_length)).map (fun p =>
    let qrow := p.1.headD []
    let kb := p.2.1
    let len := ((p.2.2.headD 0)).toNat
    [(kb.take len).foldl (fun acc k =>
        List.zipWith (fun a x => a + dotZ qrow k * x) acc k)
      (List.replicate qrow.length 0)])

/-- Configuration of `DNN` from `deepctr_torch.layers` (not under src/), as
instantiated by DIN. -/
structure DNN where
  inputs_dim : Nat
  hidden_units : List Nat
  activation : String
  dropout_rate : ℚ
  l2_reg : ℚ
deriving DecidableEq

/-- Activation function by name ("relu" clamps below at zero; other names are
modelled as the identity). -/
def activation_fn (name : String) (z : ℤ) : ℤ := if name = "relu" then max z 0 else z

/-- Modelled from the spec: one row through the feed-forward net (layer code
not under src/): each hidden layer sends the row to `u` activated weighted
sums, so the output row has `hidden_units.getLastD` entries. -/
def DNN.applyRow (d : DNN) (row : List ℤ) : List ℤ :=
  d.hidden_units.foldl (fun r u =>
    (List.range u).map (fun (j : Nat) => activation_fn d.activation (((j : ℤ) + 1) * r.sum))) row

/-- Modelled from the spec: the feed-forward net maps each batch row
independently. -/
def DNN.apply (d : DNN) (x : Tensor2) : Tensor2 := x.map d.applyRow

/-- Configuration of `torch.nn.Linear` as instantiated by DIN
(`bias = false`). -/
structure Linear where
  in_features : Nat
  out_features : Nat
  bias : Bool
deriving DecidableEq

/-- Modelled from the spec: a bias-free linear map with deterministic
placeholder weights; each batch row maps to `out_features` weighted sums. -/
def Linear.apply (l : Linear) (x : Tensor2) : Tensor2 :=
  x.map (fun row => (List.range l.out_features).map (fun (j : Nat) => ((j : ℤ) + 1) * row.sum))

/-- Modelled from the spec: the scalar output activation of the prediction
layer (sigmoid for the binary task); its numeric formula is floating point
outside this file and is modelled as an elementwise clamp to `[0, 1]`. -/
def PredictionLayer.sigma (z : ℤ) : ℤ := max 0 (min 1 z)

/-- Modelled from the spec: `PredictionLayer` of the base model (not under
src/) applies the output activation elementwise for the binary task and is the
identity otherwise. -/
def PredictionLayer.apply (task : String) (x : Tensor2) : Tensor2 :=
  if task = "binary" then x.map (fun row => row.map PredictionLayer.sigma) else x

/-- Constructor arguments of `DIN.__init__`, with the source defaults (the
`device` argument is omitted: tensor placement is not modelled). -/
structure DINArgs where
  dnn_feature_columns : List FeatureColumn
  history_feature_list : List String
  dnn_use_bn : Bool := false
  embedding_size : Nat := 8
  dnn_hidden_units : List Nat := [256, 128]
  dnn_activation : String := "relu"
  att_hidden_size : List Nat := [80, 40]
  att_activation : String := "Dice"
  l2_reg_dnn : ℚ := 0
  init_std : ℚ := 1 / 10000
  dnn_dropout : ℚ := 0
  task : String := "binary"
deriving DecidableEq

/-- The fields a fully constructed DIN instance would carry: the tensors fixed
by the constructor and the three assembled layers. -/
structure DINModel where
  dnn_feature_columns : List FeatureColumn
  embedding_dict : EmbeddingDict
  query_emb : Tensor3
  keys_emb : Tensor3
  keys_length : Tensor2
  deep_input_emb : Tensor3
  atten : AttentionSequencePoolingLayer
  dnn : DNN
  dnn_linear : Linear
  task : String
deriving DecidableEq

namespace DIN

/-- Sparse feature columns of `dnn_feature_columns` (`DIN.__init__`, the
`filter(lambda x: isinstance(x, SparseFeat), ...)` line, guarded by the
truthiness of `dnn_feature_columns`). -/
def sparse_feature_columns_val (args : DINArgs) : List FeatureColumn :=
  if args.dnn_feature_columns ≠ [] then
    args.dnn_feature_columns.filter (fun fc => fc.isSparse)
  else []

/-- Variable-length sparse feature columns of `dnn_feature_columns`
(`DIN.__init__`, the `filter(lambda x: isinstance(x, VarLenSparseFeat), ...)`
line). -/
def varlen_sparse_feature_columns_val (args : DINArgs) : List FeatureColumn :=
  if args.dnn_feature_columns ≠ [] then
    args.dnn_feature_columns.filter (fun fc => fc.isVarLen)
  else []

/-- The history feature names, `"hist_" + name` for each name of
`history_feature_list`. -/
def history_fc_names_val (args : DINArgs) : List String :=
  args.history_feature_list.map (fun x => "hist_" ++ x)

/-- The first filtering pass of `DIN.__init__`: the loop that partitions the
variable-length sparse columns into history columns (name among
`history_fc_names`) and the remaining sequence columns. -/
def history_filter_val (args : DINArgs) : List FeatureColumn × List FeatureColumn :=
  (varlen_sparse_feature_columns_val args).foldl (fun acc fc =>
    if fc.name ∈ history_fc_names_val args then (acc.1 ++ [fc], acc.2)
    else (acc.1, acc.2 ++ [fc])) ([], [])

/-- The value bound to `history_feature_columns` at the point of the keys
embedding lookup: the source re-initializes the variable to `[]` right after
the filtering loop, discarding the loop result. -/
def history_feature_columns_val (args : DINArgs) : List FeatureColumn :=
  let history_feature_columns := (history_filter_val args).1
  let history_feature_columns : List FeatureColumn := []
  history_feature_columns

/-- The value bound to `sparse_varlen_feature_columns` at the point of the
sequence embedding lookup: the source re-initializes the variable to `[]`
right after the filtering loop, discarding the loop result. -/
def sparse_varlen_feature_columns_val (args : DINArgs) : List FeatureColumn :=
  let sparse_varlen_feature_columns := (history_filter_val args).2
  let sparse_varlen_feature_columns : List FeatureColumn := []
  sparse_varlen_feature_columns

/-- The embedding tables created by the base-class constructor. -/
def embedding_dict_val (args : DINArgs) : EmbeddingDict :=
  create_embedding_matrix args.dnn_feature_columns args.embedding_size

/-- The feature index created by the base-class constructor. -/
def feature_index_val (args : DINArgs) : FeatureIndex :=
  build_input_features args.dnn_feature_columns

/-- The `query_emb_list` lookup of `DIN.__init__`: embeddings of the sparse
feature columns named in `history_feature_list`. -/
def query_emb_list_val (args : DINArgs) : List Tensor3 :=
  embedding_lookup (embedding_dict_val args) (feature_index_val args)
    (sparse_feature_columns_val args) args.history_feature_list args.history_feature_list

/-- The `keys_emb_list` lookup of `DIN.__init__`: embeddings of the (emptied)
history feature columns named in `history_fc_names`. -/
def keys_emb_list_val (args : DINArgs) : List Tensor3 :=
  embedding_lookup (embedding_dict_val args) (feature_index_val args)
    (history_feature_columns_val args) (history_fc_names_val args) (history_fc_names_val args)

/-- The `dnn_input_emb_list` of `DIN.__init__` after the `+=` of the pooled
sequence embeddings: all sparse feature embeddings followed by the pooled
embeddings of the (emptied) remaining sequence columns. -/
def dnn_input_emb_list_val (args : DINArgs) : List Tensor3 :=
  embedding_lookup (embedding_dict_val args) (feature_index_val args)
    (sparse_feature_columns_val args) [] args.history_feature_list ++
  get_varlen_pooling_list
    (varlen_embedding_lookup (embedding_dict_val args) (feature_index_val args)
      (sparse_varlen_feature_columns_val args))
    (feature_index_val args) (sparse_varlen_feature_columns_val args)

/-- The attention layer assembled by `DIN.__init__`:
`AttentionSequencePoolingLayer(att_hidden_units=att_hidden_size,
embedding_dim=embedding_size, activation=att_activation)`. -/
def build_atten (args : DINArgs) : AttentionSequencePoolingLayer :=
  { att_hidden_units := args.att_hidden_size
    embedding_dim := args.embedding_size
    activation := args.att_activation }

/-- The deep net assembled by `DIN.__init__`:
`DNN(inputs_dim=compute_input_dim(dnn_feature_columns, embedding_size),
hidden_units=dnn_hidden_units, activation=dnn_activation,
dropout_rate=dnn_dropout, l2_reg=l2_reg_dnn)`. -/
def build_dnn (args : DINArgs) : DNN :=
  { inputs_dim := compute_input_dim args.dnn_feature_columns args.embedding_size
    hidden_units := args.dnn_hidden_units
    activation := args.dnn_activation
    dropout_rate := args.dnn_dropout
    l2_reg := args.l2_reg_dnn }

/-- The final layer assembled by `DIN.__init__`:
`nn.Linear(dnn_hidden_units[-1], 1, bias=False)`. -/
def build_dnn_linear (args : DINArgs) : Linear :=
  { in_features := args.dnn_hidden_units.getLastD 0
    out_features := 1
    bias := false }

/-- The `keys_length` tensor as assigned by `DIN.__init__`:
`torch.ones((query_emb.size(0), 1))`, a ones tensor of shape `[B, 1]` where
`B` is the batch dimension of `query_emb`.  (In execution the assignment is
unreachable because the keys concatenation on the preceding line always
fails; see the constructor theorems.) -/
def keys_length_val (args : DINArgs) : Except String Tensor2 :=
  (torch.cat3 (query_emb_list_val args)).map (fun query_emb => torch.ones2 query_emb.length)

/-- Shallow embedding of `DIN.__init__`: the constructor-time lookups, the
`torch.cat` concatenations (in source order, short-circuiting on the raised
error), the `keys_length` ones tensor, and the layer assembly. -/
def init (args : DINArgs) : Except String DINModel := do
  let query_emb ← torch.cat3 (query_emb_list_val args)
  let keys_emb ← torch.cat3 (keys_emb_list_val args)
  let keys_length := torch.ones2 query_emb.length
  let deep_input_emb ← torch.cat3 (dnn_input_emb_list_val args)
  Except.ok
    { dnn_feature_columns := args.dnn_feature_columns
      embedding_dict := embedding_dict_val args
      query_emb := query_emb
      keys_emb := keys_emb
      keys_length := keys_length
      deep_input_emb := deep_input_emb
      atten := build_atten args
      dnn := build_dnn args
      dnn_linear := build_dnn_linear args
      task := args.task }

/-- The `hist` value computed by `DIN.forward`: the attention sequence pooling
layer applied to the stored query embedding, keys embedding and keys length
(the input batch `X` does not occur in this statement of the source). -/
def forward_hist (m : DINModel) (X : Input) : Tensor3 :=
  m.atten.apply m.query_emb m.keys_emb m.keys_length

/-- Shallow embedding of `DIN.forward`: recompute the sparse embeddings and
dense values from `X`, apply attention pooling to the stored query and keys,
concatenate the stored deep input embedding with the pooled history, flatten,
combine with the dense values, and run the DNN, the final linear layer and the
output activation. -/
def forward (m : DINModel) (X : Input) : Except String Tensor2 := do
  let sparse_dense := input_from_feature_columns X m.dnn_feature_columns m.embedding_dict
  let sparse_embedding_list := sparse_dense.1
  let dense_value_list := sparse_dense.2
  let hist := forward_hist m X
  let deep_input_emb ← torch.cat3 [m.deep_input_emb, hist]
  let deep_input_emb_flat := deep_input_emb.map List.flatten
  let dnn_input ← combined_dnn_input [deep_input_emb_flat] dense_value_list
  let dnn_output := m.dnn.apply dnn_input
  let dnn_logit := m.dnn_linear.apply dnn_output
  let y_pred := PredictionLayer.apply m.task dnn_logit
  Except.ok y_pred

/-- State-passing embedding of `DIN.forward`: the method reads model
attributes but contains no assignment to `self`, so the resulting state is the
incoming model unchanged. -/
def forwardS (m : DINModel) (X : Input) : Except String Tensor2 × DINModel :=
  (forward m X, m)

end DIN

/-- Top-level class definitions of the file `deepctr_torch/models/din.py`:
one class, `DIN`, with base class `BaseModel`. -/
structure PyClassDef where
  name : String
  parent : String
deriving DecidableEq

/-- Transcription of the top-level class definitions of
`deepctr_torch/models/din.py` (the only other top level statements are
imports, the module docstring and an empty `if __name__` guard). -/
def din_module_classes : List PyClassDef := [{ name := "DIN", parent := "BaseModel" }]

/-! Helper lemmas shared by the claim theorems. -/

/-- Binding a successful `Except` computation applies the continuation. -/
theorem exc_bind_ok {α β : Type} (a : α) (f : α → Except String β) :
    (Except.ok a >>= f) = f a := rfl

/-- Binding a failed `Except` computation propagates the error. -/
theorem exc_bind_error {α β : Type} (e : String) (f : α → Except String β) :
    ((Except.error e : Except String α) >>= f) = Except.error e := rfl

/-- Every embedding table created by `create_embedding_matrix` is a
`[1, 1, E]` tensor. -/
theorem create_embedding_matrix_mem_shape (cols : List FeatureColumn) (E : Nat)
    (p : String × Tensor3) (hp : p ∈ create_embedding_matrix cols E) :
    ∃ v, p.2 = [[v]] := by
  simp only [create_embedding_matrix, List.mem_filterMap] at hp
  obtain ⟨fc, _, hfc⟩ := hp
  cases fc with
  | SparseFeat n d =>
    simp only [Option.some.injEq] at hfc
    exact ⟨embedding_vector n E, by rw [← hfc]⟩
  | DenseFeat n d => simp at hfc
  | VarLenSparseFeat n d m =>
    simp only [Option.some.injEq] at hfc
    exact ⟨embedding_vector n E, by rw [← hfc]⟩

/-- A successful lookup in an association list whose values all have a given
shape returns a value of that shape. -/
theorem lookup_shape (d : EmbeddingDict) (name : String) (t : Tensor3)
    (hall : ∀ p ∈ d, ∃ v, p.2 = [[v]]) (h : d.lookup name = some t) : ∃ v, t = [[v]] := by
  induction d with
  | nil => simp [List.lookup] at h
  | cons p rest ih =>
    rw [List.lookup] at h
    by_cases hb : name == p.1
    · rw [hb] at h
      simp only [Option.some.injEq] at h
      obtain ⟨v, hv⟩ := hall p (List.mem_cons_self _ _)
      exact ⟨v, by rw [← h, hv]⟩
    · rw [Bool.not_eq_true] at hb
      rw [hb] at h
      exact ih (fun q hq => hall q (List.mem_cons_of_mem _ hq)) h

/-- Every tensor in the constructor-time `query_emb_list` lookup is a
`[1, 1, E]` tensor. -/
theorem query_emb_list_val_shape (args : DINArgs) :
    ∀ t ∈ DIN.query_emb_list_val args, ∃ v, t = [[v]] := by
  intro t ht
  simp only [DIN.query_emb_list_val, embedding_lookup, List.mem_filterMap] at ht
  obtain ⟨fc, _, hfc⟩ := ht
  split at hfc
  · exact lookup_shape _ _ _
      (create_embedding_matrix_mem_shape args.dnn_feature_columns args.embedding_size) hfc
  · simp at hfc

/-- Folding pairwise last-dimension concatenation over `[1, 1, E]` tensors
from a `[1, 1, E]` accumulator never fails and keeps the `[1, 1, E]` shape. -/
theorem foldlM_catPair3_singletons (ts : List Tensor3) (v : List ℤ)
    (h : ∀ t ∈ ts, ∃ w, t = [[w]]) :
    ∃ u, ts.foldlM torch.catPair3 [[v]] = Except.ok [[u]] := by
  induction ts generalizing v with
  | nil => exact ⟨v, rfl⟩
  | cons s rest ih =>
    obtain ⟨w, rfl⟩ := h s (List.mem_cons_self _ _)
    have hstep : torch.catPair3 [[v]] [[w]] = Except.ok [[v ++ w]] := by
      simp [torch.catPair3]
    rw [List.foldlM_cons, hstep, exc_bind_ok]
    exact ih (v ++ w) (fun t ht => h t (List.mem_cons_of_mem _ ht))

/-- Concatenating a list of `[1, 1, E]` tensors either fails on the empty
list or succeeds with a `[1, 1, E]` tensor. -/
theorem cat3_of_singletons (ts : List Tensor3) (h : ∀ t ∈ ts, ∃ w, t = [[w]]) :
    torch.cat3 ts = Except.error torch.catEmptyMsg ∨
      ∃ u, torch.cat3 ts = Except.ok [[u]] := by
  cases ts with
  | nil => exact Or.inl rfl
  | cons t rest =>
    obtain ⟨w, rfl⟩ := h t (List.mem_cons_self _ _)
    exact Or.inr (foldlM_catPair3_singletons rest w
      (fun s hs => h s (List.mem_cons_of_mem _ hs)))

/-- C2: in `DIN.__init__`, at the point of the history-key embedding lookup,
`history_feature_columns` and `sparse_varlen_feature_columns` are the empty
list (the filtering loop result is discarded by the re-initialization that
follows it), hence the keys embedding list is empty, the concatenation of that
list raises, and the constructor never returns a model instance normally. -/
theorem din_C2 (args : DINArgs) :
    DIN.history_feature_columns_val args = [] ∧
    DIN.sparse_varlen_feature_columns_val args = [] ∧
    DIN.keys_emb_list_val args = [] ∧
    DIN.init args = Except.error torch.catEmptyMsg := by
  refine ⟨rfl, rfl, rfl, ?_⟩
  unfold DIN.init
  rcases cat3_of_singletons _ (query_emb_list_val_shape args) with h | ⟨u, h⟩
  · rw [h]; rfl
  · rw [h]; rfl

/-- Constructor arguments exercising the history machinery: one sparse feature
`item`, its behavior-history sequence feature `hist_item`, one dense feature
`pay`, with `history_feature_list = ["item"]`. -/
def argsItem : DINArgs :=
  { dnn_feature_columns := [FeatureColumn.SparseFeat "item" 4,
                            FeatureColumn.VarLenSparseFeat "hist_item" 4 4,
                            FeatureColumn.DenseFeat "pay" 1]
    history_feature_list := ["item"]
    embedding_size := 2
    dnn_hidden_units := [3, 2]
    att_hidden_size := [4]
    l2_reg_dnn := 0
    init_std := 0
    dnn_dropout := 0
    task := "binary" }

/-- C3 evidence: on a model request with a non-empty `history_feature_list`
and a matching `hist_item` sequence column, the first filtering pass does find
the history column, but the re-initialization discards it, the keys embedding
list is empty, and the constructor raises instead of building an attention
stage over the historical behavior embeddings. -/
theorem din_C3_bug :
    (DIN.history_filter_val argsItem).1 = [FeatureColumn.VarLenSparseFeat "hist_item" 4 4] ∧
    DIN.history_feature_columns_val argsItem = [] ∧
    DIN.keys_emb_list_val argsItem = [] ∧
    DIN.init argsItem = Except.error torch.catEmptyMsg :=
  ⟨rfl, rfl, rfl, rfl⟩

/-- C5: the `keys_length` tensor assigned by the constructor is
`torch.ones((B, 1))` with `B` the batch dimension of the query embedding, and
on every call `forward` passes the stored `keys_length` to the attention
sequence pooling layer unchanged, independent of the input batch. -/
theorem din_C5 (args : DINArgs) (q : Tensor3)
    (h : torch.cat3 (DIN.query_emb_list_val args) = Except.ok q) :
    DIN.keys_length_val args = Except.ok (List.replicate q.length [(1 : ℤ)]) ∧
    ∀ (m : DINModel) (X : Input),
      DIN.forward_hist m X =
        AttentionSequencePoolingLayer.apply m.atten m.query_emb m.keys_emb m.keys_length := by
  constructor
  · unfold DIN.keys_length_val
    rw [h]
    rfl
  · intro m X
    rfl

/-- C5 witness: on `argsItem` the query concatenation succeeds with a one-row
query embedding and the conclusion holds there. -/
theorem din_C5_witness :
    torch.cat3 (DIN.query_emb_list_val argsItem) = Except.ok [[[5, 5]]] ∧
    (DIN.keys_length_val argsItem =
        Except.ok (List.replicate ([[[(5 : ℤ), 5]]] : Tensor3).length [(1 : ℤ)]) ∧
      ∀ (m : DINModel) (X : Input),
        DIN.forward_hist m X =
          AttentionSequencePoolingLayer.apply m.atten m.query_emb m.keys_emb m.keys_length) :=
  ⟨rfl, din_C5 argsItem [[[5, 5]]] rfl⟩

/-- C7: the layers assembled by the constructor carry exactly the parameters
`DIN.__init__` was given: the attention layer gets `att_hidden_size`,
`embedding_size` and `att_activation`; the deep net gets
`compute_input_dim(dnn_feature_columns, embedding_size)` (one embedding per
sparse or variable-length sparse feature plus the dense dimensions),
`dnn_hidden_units`, `dnn_activation`, `dnn_dropout` and `l2_reg_dnn`; and the
final layer is a bias-free linear map from `dnn_hidden_units[-1]` to `1`. -/
theorem din_C7 (args : DINArgs) (h : args.dnn_hidden_units ≠ []) :
    DIN.build_atten args =
      { att_hidden_units := args.att_hidden_size
        embedding_dim := args.embedding_size
        activation := args.att_activation } ∧
    DIN.build_dnn args =
      { inputs_dim := compute_input_dim args.dnn_feature_columns args.embedding_size
        hidden_units := args.dnn_hidden_units
        activation := args.dnn_activation
        dropout_rate := args.dnn_dropout
        l2_reg := args.l2_reg_dnn } ∧
    (DIN.build_dnn args).inputs_dim =
      (args.dnn_feature_columns.filter (fun fc => fc.isSparse || fc.isVarLen)).length *
          args.embedding_size +
        (args.dnn_feature_columns.filterMap (fun fc =>
          match fc with
          | .DenseFeat _ d => some d
          | _ => none)).sum ∧
    DIN.build_dnn_linear args =
      { in_features := args.dnn_hidden_units.getLast h
        out_features := 1
        bias := false } := by
  refine ⟨rfl, rfl, rfl, ?_⟩
  unfold DIN.build_dnn_linear
  have hl : args.dnn_hidden_units.getLastD 0 = args.dnn_hidden_units.getLast h := by
    rw [List.getLastD_eq_getLast?, List.getLast?_eq_getLast _ h]
    rfl
  rw [hl]

/-- C7 witness: the layer assembly at `argsItem`, whose hidden-unit list is
non-empty. -/
theorem din_C7_witness :
    argsItem.dnn_hidden_units ≠ [] ∧
    (DIN.build_atten argsItem =
      { att_hidden_units := argsItem.att_hidden_size
        embedding_dim := argsItem.embedding_size
        activation := argsItem.att_activation } ∧
    DIN.build_dnn argsItem =
      { inputs_dim := compute_input_dim argsItem.dnn_feature_columns argsItem.embedding_size
        hidden_units := argsItem.dnn_hidden_units
        activation := argsItem.dnn_activation
        dropout_rate := argsItem.dnn_dropout
        l2_reg := argsItem.l2_reg_dnn } ∧
    (DIN.build_dnn argsItem).inputs_dim =
      (argsItem.dnn_feature_columns.filter (fun fc => fc.isSparse || fc.isVarLen)).length *
          argsItem.embedding_size +
        (argsItem.dnn_feature_columns.filterMap (fun fc =>
          match fc with
          | .DenseFeat _ d => some d
          | _ => none)).sum ∧
    DIN.build_dnn_linear argsItem =
      { in_features := argsItem.dnn_hidden_units.getLast (by decide)
        out_features := 1
        bias := false }) :=
  ⟨by decide, din_C7 argsItem (by decide)⟩

/-- Dense-value extraction only reads the dense feature columns of the input:
two batches agreeing on those columns yield the same dense value list. -/
theorem get_dense_input_congr (X1 X2 : Input) (cols : List FeatureColumn)
    (h : ∀ fc ∈ cols, fc.isDense = true →
      X1.denseVals.lookup fc.name = X2.denseVals.lookup fc.name) :
    get_dense_input X1 cols = get_dense_input X2 cols := by
  induction cols with
  | nil => rfl
  | cons fc rest ih =>
    have hrest := ih (fun fc hm hd => h fc (List.mem_cons_of_mem _ hm) hd)
    unfold get_dense_input at hrest ⊢
    rw [List.filterMap_cons, List.filterMap_cons]
    cases fc with
    | DenseFeat n d =>
      have hn := h (.DenseFeat n d) (List.mem_cons_self _ _) rfl
      simp only [FeatureColumn.name] at hn
      simp only [hn, hrest]
    | SparseFeat n d => simpa using hrest
    | VarLenSparseFeat n d m => simpa using hrest

/-- C4: two input batches that agree on the dense feature columns produce
equal forward outputs for every model state, however their sparse and
variable-length sparse columns differ: the query, keys and deep-input
embeddings used by `forward` are fixed at construction time, and the sparse
embedding list recomputed from `X` is never used. -/
theorem din_C4 (m : DINModel) (X1 X2 : Input)
    (h : ∀ fc ∈ m.dnn_feature_columns, fc.isDense = true →
      X1.denseVals.lookup fc.name = X2.denseVals.lookup fc.name) :
    DIN.forward m X1 = DIN.forward m X2 := by
  simp only [DIN.forward, DIN.forward_hist, input_from_feature_columns]
  rw [get_dense_input_congr X1 X2 m.dnn_feature_columns h]

/-- The feed-forward net maps batch rows independently, preserving the batch
size. -/
theorem dnn_apply_length (d : DNN) (x : Tensor2) : (d.apply x).length = x.length :=
  List.length_map x d.applyRow

/-- The linear layer preserves the batch size. -/
theorem linear_apply_length (l : Linear) (x : Tensor2) : (l.apply x).length = x.length :=
  List.length_map x _

/-- Every row produced by the linear layer has `out_features` entries. -/
theorem linear_apply_row_length (l : Linear) (x : Tensor2) (row : List ℤ)
    (h : row ∈ l.apply x) : row.length = l.out_features := by
  obtain ⟨r, _, rfl⟩ := List.mem_map.mp h
  rw [List.length_map, List.length_range]

/-- The prediction layer preserves the batch size. -/
theorem prediction_apply_length (task : String) (x : Tensor2) :
    (PredictionLayer.apply task x).length = x.length := by
  unfold PredictionLayer.apply
  split
  · exact List.length_map x _
  · rfl

/-- Every row produced by the prediction layer has the length of some input
row. -/
theorem prediction_apply_row (task : String) (x : Tensor2) (row : List ℤ)
    (h : row ∈ PredictionLayer.apply task x) : ∃ r ∈ x, row.length = r.length := by
  unfold PredictionLayer.apply at h
  split at h
  · obtain ⟨r, hr, rfl⟩ := List.mem_map.mp h
    exact ⟨r, hr, List.length_map r _⟩
  · exact ⟨row, h, rfl⟩

/-- Decomposition of a successful forward pass: the output is the output
activation of the final linear layer applied to the DNN output on the combined
input of the flattened concatenation of the stored deep-input embedding with
the attention-pooled history and the dense values of `X`. -/
theorem forward_ok_decompose (m : DINModel) (X : Input) (y : Tensor2)
    (h : DIN.forward m X = Except.ok y) :
    ∃ deep dnn_input,
      torch.cat3 [m.deep_input_emb,
          AttentionSequencePoolingLayer.apply m.atten m.query_emb m.keys_emb m.keys_length] =
        Except.ok deep ∧
      combined_dnn_input [deep.map List.flatten] (get_dense_input X m.dnn_feature_columns) =
        Except.ok dnn_input ∧
      y = PredictionLayer.apply m.task
        (Linear.apply m.dnn_linear (DNN.apply m.dnn dnn_input)) := by
  simp only [DIN.forward, DIN.forward_hist, input_from_feature_columns] at h
  cases e1 : torch.cat3 [m.deep_input_emb,
      AttentionSequencePoolingLayer.apply m.atten m.query_emb m.keys_emb m.keys_length] with
  | error msg =>
    rw [e1, exc_bind_error] at h
    exact absurd h (by simp)
  | ok deep =>
    rw [e1, exc_bind_ok] at h
    cases e2 : combined_dnn_input [deep.map List.flatten]
        (get_dense_input X m.dnn_feature_columns) with
    | error msg =>
      rw [e2, exc_bind_error] at h
      exact absurd h (by simp)
    | ok dnn_input =>
      rw [e2, exc_bind_ok] at h
      simp only [Except.ok.injEq] at h
      exact ⟨deep, dnn_input, by simp [e1], by simp [e2], h.symm⟩

/-- C1: a successful forward pass composes the three stages: attention
sequence pooling of the stored query and history-key embeddings, last-
dimension concatenation of the pooled history with the other feature
embeddings followed by combination with the dense inputs, and the DNN, final
linear layer and output activation; it returns a batch-sized output with one
score per row. -/
theorem din_C1 (m : DINModel) (X : Input) (y : Tensor2)
    (h : DIN.forward m X = Except.ok y) :
    ∃ deep dnn_input,
      torch.cat3 [m.deep_input_emb,
          AttentionSequencePoolingLayer.apply m.atten m.query_emb m.keys_emb m.keys_length] =
        Except.ok deep ∧
      combined_dnn_input [deep.map List.flatten] (get_dense_input X m.dnn_feature_columns) =
        Except.ok dnn_input ∧
      y = PredictionLayer.apply m.task
        (Linear.apply m.dnn_linear (DNN.apply m.dnn dnn_input)) ∧
      y.length = dnn_input.length ∧
      (m.dnn_linear.out_features = 1 → ∀ row ∈ y, row.length = 1) := by
  obtain ⟨deep, dnn_input, e1, e2, hy⟩ := forward_ok_decompose m X y h
  refine ⟨deep, dnn_input, e1, e2, hy, ?_, ?_⟩
  · rw [hy, prediction_apply_length, linear_apply_length, dnn_apply_length]
  · intro hout row hrow
    rw [hy] at hrow
    obtain ⟨r, hr, hlen⟩ := prediction_apply_row m.task _ row hrow
    rw [hlen, linear_apply_row_length m.dnn_linear _ r hr, hout]

/-- Model state used by the concrete forward-pass witnesses: one sparse
feature `a`, one dense feature `d`, embedding size 2, hidden units `[3, 2]`,
a one-score final linear layer and the binary task. -/
def mWit : DINModel :=
  { dnn_feature_columns := [FeatureColumn.SparseFeat "a" 4, FeatureColumn.DenseFeat "d" 1]
    embedding_dict := [("a", [[[1, 2]]])]
    query_emb := [[[1, 2]]]
    keys_emb := [[[3, 4]]]
    keys_length := [[1]]
    deep_input_emb := [[[5, 6]]]
    atten := { att_hidden_units := [4], embedding_dim := 2, activation := "Dice" }
    dnn := { inputs_dim := 5, hidden_units := [3, 2], activation := "relu",
             dropout_rate := 0, l2_reg := 0 }
    dnn_linear := { in_features := 2, out_features := 1, bias := false }
    task := "binary" }

/-- Input batch used by the concrete forward-pass witnesses. -/
def xWit : Input :=
  { sparseVals := [("a", [2])]
    denseVals := [("d", [[7]])]
    varlenVals := [("hist_a", [[[1, 1]]])] }

/-- Input batch with the same dense column as `xWit` but different sparse and
variable-length sparse columns. -/
def xWit2 : Input :=
  { sparseVals := [("a", [9])]
    denseVals := [("d", [[7]])]
    varlenVals := [("hist_a", [[[8, 8], [9, 9]]])] }

/-- C1 witness: the concrete forward pass succeeds and decomposes into the
three stages with one score for its single row. -/
theorem din_C1_witness :
    DIN.forward mWit xWit = Except.ok [[(1 : ℤ)]] ∧
    (∃ deep dnn_input,
      torch.cat3 [mWit.deep_input_emb,
          AttentionSequencePoolingLayer.apply mWit.atten mWit.query_emb mWit.keys_emb
            mWit.keys_length] =
        Except.ok deep ∧
      combined_dnn_input [deep.map List.flatten]
          (get_dense_input xWit mWit.dnn_feature_columns) =
        Except.ok dnn_input ∧
      [[(1 : ℤ)]] = PredictionLayer.apply mWit.task
        (Linear.apply mWit.dnn_linear (DNN.apply mWit.dnn dnn_input)) ∧
      ([[(1 : ℤ)]] : Tensor2).length = dnn_input.length ∧
      (mWit.dnn_linear.out_features = 1 → ∀ row ∈ ([[(1 : ℤ)]] : Tensor2), row.length = 1)) :=
  ⟨rfl, din_C1 mWit xWit [[(1 : ℤ)]] rfl⟩

/-- C4 witness: two concrete batches differing in their sparse and
variable-length sparse columns but agreeing on the dense column give the same
forward output. -/
theorem din_C4_witness :
    xWit.sparseVals ≠ xWit2.sparseVals ∧
    xWit.varlenVals ≠ xWit2.varlenVals ∧
    DIN.forward mWit xWit = DIN.forward mWit xWit2 :=
  ⟨by decide, by decide, din_C4 mWit xWit xWit2 (by decide)⟩

/-- C6: the file defines exactly one model class, `DIN`, a subclass of
`BaseModel`, and a successful forward pass of a model whose final linear layer
has one output feature returns one score per row. -/
theorem din_C6 :
    din_module_classes = [{ name := "DIN", parent := "BaseModel" }] ∧
    din_module_classes.length = 1 ∧
    ∀ (m : DINModel) (X : Input) (y : Tensor2),
      DIN.forward m X = Except.ok y → m.dnn_linear.out_features = 1 →
        ∀ row ∈ y, row.length = 1 := by
  refine ⟨rfl, rfl, ?_⟩
  intro m X y h hout row hrow
  obtain ⟨deep, dnn_input, _, _, hy⟩ := forward_ok_decompose m X y h
  rw [hy] at hrow
  obtain ⟨r, hr, hlen⟩ := prediction_apply_row m.task _ row hrow
  rw [hlen, linear_apply_row_length m.dnn_linear _ r hr, hout]

/-- C6 witness: the per-row score shape at the concrete forward pass. -/
theorem din_C6_witness :
    DIN.forward mWit xWit = Except.ok [[(1 : ℤ)]] ∧
    ∀ row ∈ ([[(1 : ℤ)]] : Tensor2), row.length = 1 :=
  ⟨rfl, din_C6.2.2 mWit xWit [[(1 : ℤ)]] rfl rfl⟩

/-- C8: the state-passing forward pass is deterministic in the model state and
the input, and returns the model state unchanged (the source method contains
no assignment to `self`; the stochastic dropout layer is inactive in this
model, whose layers are deterministic). -/
theorem din_C8 (m : DINModel) (X1 X2 : Input) (h : X1 = X2) :
    (DIN.forwardS m X1).1 = (DIN.forwardS m X2).1 ∧
    (DIN.forwardS m X1).2 = m ∧
    (DIN.forwardS m X2).2 = m := by
  subst h
  exact ⟨rfl, rfl, rfl⟩

/-- C8 witness: determinism and state preservation at the concrete forward
pass. -/
theorem din_C8_witness :
    (DIN.forwardS mWit xWit).1 = (DIN.forwardS mWit xWit).1 ∧
    (DIN.forwardS mWit xWit).2 = mWit ∧
    (DIN.forwardS mWit xWit).2 = mWit :=
  din_C8 mWit xWit xWit rfl

end DeepCTR
